import Mathlib

/-!
Shallow embedding of the book-lending library in `src/library.py`
(class `Book` and class `Library`).  The other source files
(`classes.py`, `book.py`, `shelf.py`) are the abandoned first draft of
the same entity/registry pair (`classes.py` does not even parse); the
identifier-keyed `Library` with explicit load/save in `library.py` is
the live implementation, and it is the one embedded here.

Modelling conventions:
- Python objects become Lean structures; object identity is modelled as
  structural equality (in the embedding two structurally equal books
  are the same book).
- A Python `dict` becomes an insertion-ordered association list whose
  update keeps the position of an existing key and appends a new one.
- Raising an exception is modelled by returning the error together with
  the (unchanged) state: every operation returns the resulting state in
  both the success and the raise case, so "leaves state unchanged on
  failure" is a provable statement, not a modelling artifact.
- `datetime` becomes a record of year/month/day/hour/minute/second.
  The strftime/strptime pair for the `'%Y%m%d'` format is modelled on
  the zero-padded 8-character form it produces for four-digit years
  (below year 1000 CPython's `%Y` output is platform dependent, and
  CPython's strptime additionally accepts unpadded month/day strings of
  length 6 or 7, which nothing in the repository produces).
- Dynamic attribute values are modelled by the `PyVal` type; keyword
  arguments and serialized mappings carry `PyVal`s.  The model covers
  values of the attribute's actual Python type for the typed fields.
-/

namespace PyLib

/-- A dynamically typed Python value, as far as the library stores them:
strings, integers, booleans, datetimes and `None`. -/
inductive PyVal where
  | str (s : String)
  | int (n : Int)
  | bool (b : Bool)
  | date (y m d hh mm ss : Nat)
  | none
deriving DecidableEq

/-- Python's exceptions as raised by `library.py`: `KeyError` carries its
message (for `dict.pop` the missing key), `TypeError` and `ValueError`
come out of `datetime` operations, `AttributeError` out of `strftime` on
`None`. -/
inductive PyErr where
  | keyError (msg : String)
  | typeError
  | valueError
  | attributeError
deriving DecidableEq

/-- A `datetime.datetime` value. -/
structure PyDateTime where
  year : Nat
  month : Nat
  day : Nat
  hour : Nat
  minute : Nat
  second : Nat
deriving DecidableEq

/-- Gregorian leap year, as `calendar.isleap` / `datetime` use it. -/
def isLeap (y : Nat) : Bool :=
  y % 4 = 0 && (y % 100 ≠ 0 || y % 400 = 0)

/-- Number of days of month `m` in year `y` (0 for an out-of-range month). -/
def daysInMonth (y m : Nat) : Nat :=
  match m with
  | 1 => 31
  | 2 => if isLeap y then 29 else 28
  | 3 => 31
  | 4 => 30
  | 5 => 31
  | 6 => 30
  | 7 => 31
  | 8 => 31
  | 9 => 30
  | 10 => 31
  | 11 => 30
  | 12 => 31
  | _ => 0

/-- The constructible `datetime.datetime` dates the formatting model covers:
a calendar-valid date with a four-digit year. -/
def PyDateTime.ValidDate (d : PyDateTime) : Prop :=
  1000 ≤ d.year ∧ d.year ≤ 9999 ∧ 1 ≤ d.month ∧ d.month ≤ 12 ∧
    1 ≤ d.day ∧ d.day ≤ daysInMonth d.year d.month

instance (d : PyDateTime) : Decidable d.ValidDate := by
  unfold PyDateTime.ValidDate; infer_instance

/-- Cumulative days before month `m` in a non-leap year
(the `_days_before_month` table of CPython's `datetime`). -/
def daysBeforeMonth (m : Nat) : Nat :=
  match m with
  | 1 => 0
  | 2 => 31
  | 3 => 59
  | 4 => 90
  | 5 => 120
  | 6 => 151
  | 7 => 181
  | 8 => 212
  | 9 => 243
  | 10 => 273
  | 11 => 304
  | 12 => 334
  | _ => 365

/-- `datetime.date.toordinal`: day number with day 1 = January 1 of year 1. -/
def toOrdinal (y m d : Nat) : Nat :=
  365 * (y - 1) + (y - 1) / 4 + (y - 1) / 400 - (y - 1) / 100 +
    daysBeforeMonth m + (if 2 < m ∧ isLeap y then 1 else 0) + d

/-- Seconds since the `datetime` epoch; differences of this measure are
Python `timedelta`s (total seconds). -/
def PyDateTime.toSeconds (d : PyDateTime) : Int :=
  ((toOrdinal d.year d.month d.day) * 86400 + d.hour * 3600 + d.minute * 60 + d.second : Nat)

/-- One decimal digit as a character, `'0'` to `'9'`. -/
def digitChar (n : Nat) : Char :=
  match n with
  | 0 => '0' | 1 => '1' | 2 => '2' | 3 => '3' | 4 => '4'
  | 5 => '5' | 6 => '6' | 7 => '7' | 8 => '8' | _ => '9'

/-- Numeric value of a decimal digit character (its ASCII code minus 48),
absent for a non-digit. -/
def charVal (c : Char) : Option Nat :=
  if '0' ≤ c ∧ c ≤ '9' then some (c.toNat - 48) else Option.none

/-- `d.strftime('%Y%m%d')` as a character list: year, month, day zero-padded
to 4+2+2 digits. -/
def fmtYYYYMMDD (d : PyDateTime) : List Char :=
  [digitChar (d.year / 1000 % 10), digitChar (d.year / 100 % 10),
   digitChar (d.year / 10 % 10), digitChar (d.year % 10),
   digitChar (d.month / 10 % 10), digitChar (d.month % 10),
   digitChar (d.day / 10 % 10), digitChar (d.day % 10)]

/-- `datetime.strptime(s, '%Y%m%d')` on the 8-character zero-padded form:
four year digits, two month digits (01–12), two day digits valid for the
month; the result is that date at midnight.  `Option.none` is the
`ValueError` of a failed parse. -/
def parseYYYYMMDD (cs : List Char) : Option PyDateTime :=
  match cs with
  | [y1, y2, y3, y4, m1, m2, d1, d2] =>
    match charVal y1, charVal y2, charVal y3, charVal y4,
          charVal m1, charVal m2, charVal d1, charVal d2 with
    | some a, some b, some c, some e, some f, some g, some h, some i =>
      let y := 1000 * a + 100 * b + 10 * c + e
      let mo := 10 * f + g
      let da := 10 * h + i
      if 1 ≤ y ∧ 1 ≤ mo ∧ mo ≤ 12 ∧ 1 ≤ da ∧ da ≤ daysInMonth y mo then
        some ⟨y, mo, da, 0, 0, 0⟩
      else Option.none
    | _, _, _, _, _, _, _, _ => Option.none
  | _ => Option.none

/-- Python `dict` update on an association list: an existing key keeps its
position and gets the new value, a new key is appended. -/
def assocUpdate {α : Type} (l : List (String × α)) (k : String) (v : α) :
    List (String × α) :=
  if l.any (fun q => q.1 == k) then
    l.map (fun q => if q.1 = k then (k, v) else q)
  else l ++ [(k, v)]

/-- The `Book` of `library.py`: title, author, identifier `bid`, the three
lending-state fields, and the open-ended extra attributes installed by
`**kwargs` / `from_dict` (a side mapping of attribute name to value). -/
structure Book where
  title : String
  author : String
  bid : String
  is_lent : Bool
  current_user : Option String
  return_date : Option PyDateTime
  extra : List (String × PyVal)
deriving DecidableEq

/-- One step of `self.__dict__.update(kwargs)`: a keyword targeting one of
the three lending-state attributes overwrites that field (the docstring
says kwargs "can also be used CAREFULLY to set is_lent, current_user and
return_date"); any other keyword lands in the extra-attribute mapping.
`title`, `author` and `bid` cannot occur among `**kwargs` because they are
named parameters of `__init__`. -/
def Book.applyKwarg (b : Book) (kv : String × PyVal) : Book :=
  if kv.1 = "is_lent" then
    match kv.2 with
    | PyVal.bool x => { b with is_lent := x }
    | _ => { b with extra := assocUpdate b.extra kv.1 kv.2 }
  else if kv.1 = "current_user" then
    match kv.2 with
    | PyVal.str s => { b with current_user := some s }
    | PyVal.none => { b with current_user := Option.none }
    | _ => { b with extra := assocUpdate b.extra kv.1 kv.2 }
  else if kv.1 = "return_date" then
    match kv.2 with
    | PyVal.date y m d hh mm ss => { b with return_date := some ⟨y, m, d, hh, mm, ss⟩ }
    | PyVal.none => { b with return_date := Option.none }
    | _ => { b with extra := assocUpdate b.extra kv.1 kv.2 }
  else
    { b with extra := assocUpdate b.extra kv.1 kv.2 }

/-- `Book.__init__(title, author, bid=None, **kwargs)`.  `fresh` stands for
the `str(uuid4())` drawn when `bid` is omitted.  The defaults are set
first, then `self.__dict__.update(kwargs)` runs left to right. -/
def Book.init (title author : String) (bid : Option String) (fresh : String)
    (kwargs : List (String × PyVal)) : Book :=
  kwargs.foldl Book.applyKwarg
    { title := title, author := author, bid := bid.getD fresh,
      is_lent := false, current_user := Option.none, return_date := Option.none,
      extra := [] }

/-- The serialized mapping `Book.to_dict` produces and `Book.from_dict`
consumes: all core keys present with values of the field's Python type,
except `return_date`, which `from_dict` scrutinises dynamically, plus the
extra opaque fields.  The identifier `bid` has no slot: it is excluded
from the payload. -/
structure BookDict where
  title : String
  author : String
  is_lent : Bool
  current_user : Option String
  return_date : PyVal
  extra : List (String × PyVal)
deriving DecidableEq

/-- `Book.to_dict`: every attribute except `bid`; `return_date` rendered by
`strftime('%Y%m%d')` when it is a datetime and as `None` otherwise (the
`AttributeError` of `None.strftime` is caught). -/
def Book.to_dict (b : Book) : BookDict :=
  { title := b.title
    author := b.author
    is_lent := b.is_lent
    current_user := b.current_user
    return_date :=
      match b.return_date with
      | some d => PyVal.str (String.mk (fmtYYYYMMDD d))
      | Option.none => PyVal.none
    extra := b.extra }

/-- The `return_date` branch of `from_dict`:
`datetime.strptime(value, '%Y%m%d')` with only `TypeError` caught.  A
non-string value raises `TypeError`, which the `except` turns into `None`;
a string that fails to parse raises `ValueError`, which propagates. -/
def parseReturnDate (v : PyVal) : Except PyErr (Option PyDateTime) :=
  match v with
  | PyVal.str s =>
    match parseYYYYMMDD s.toList with
    | some d => Except.ok (some d)
    | Option.none => Except.error PyErr.valueError
  | _ => Except.ok Option.none

/-- `Book.from_dict(book_dict, bid=None)`: builds `Book(title, author, bid)`
(drawing `fresh` if `bid` is `None`), then walks the mapping's items in
order, skipping `title`/`author`, parsing `return_date`, and
`__dict__`-updating every other key. -/
def Book.from_dict (book_dict : BookDict) (bid : Option String) (fresh : String) :
    Except PyErr Book :=
  let b0 := Book.init book_dict.title book_dict.author bid fresh []
  let b1 := { b0 with is_lent := book_dict.is_lent,
                      current_user := book_dict.current_user }
  match parseReturnDate book_dict.return_date with
  | Except.error e => Except.error e
  | Except.ok rd =>
    Except.ok { b1 with
      return_date := rd,
      extra := book_dict.extra.foldl (fun acc kv => assocUpdate acc kv.1 kv.2) b1.extra }

/-- `Book.days_until_return` (property): when lent, the `timedelta`
`return_date - today` in seconds; when not lent, `None`.  `today` stands
for `datetime.today()`.  A lent book with no return date would evaluate
`None - datetime`, a `TypeError`. -/
def Book.days_until_return (b : Book) (today : PyDateTime) :
    Except PyErr (Option Int) :=
  if b.is_lent then
    match b.return_date with
    | some d => Except.ok (some (d.toSeconds - today.toSeconds))
    | Option.none => Except.error PyErr.typeError
  else Except.ok Option.none

/-- The `Library` of `library.py`: the target filename and the dict of
books keyed by identifier. -/
structure Library where
  filename : String
  books : List (String × Book)
deriving DecidableEq

/-- `self.books.values()`. -/
def Library.values (lib : Library) : List Book :=
  lib.books.map Prod.snd

/-- `Library.add_book`: raises `KeyError` when the book is already among
the values, otherwise `self.books.update({book.bid: book})`. -/
def Library.add_book (lib : Library) (book : Book) : Option PyErr × Library :=
  if book ∈ lib.values then
    (some (PyErr.keyError "Book already registered in the library"), lib)
  else
    (Option.none, { lib with books := assocUpdate lib.books book.bid book })

/-- `Library.delete_book`: the guard raises `KeyError` when the book is
absent and `no_warn` is false; then `self.books.pop(book.bid)` runs
unconditionally, itself raising `KeyError(book.bid)` when the identifier
is not a key. -/
def Library.delete_book (lib : Library) (book : Book) (no_warn : Bool) :
    Option PyErr × Library :=
  if book ∉ lib.values ∧ no_warn = false then
    (some (PyErr.keyError "Book is not registered in the library"), lib)
  else if lib.books.any (fun q => q.1 == book.bid) then
    (Option.none, { lib with books := lib.books.filter (fun q => q.1 != book.bid) })
  else
    (some (PyErr.keyError book.bid), lib)

/-- `Library.lend_book`: raises `KeyError` when the book is absent or
already lent; otherwise mutates the book in place (the registry entries
holding this object and the caller's reference see the same update). -/
def Library.lend_book (lib : Library) (book : Book) (return_date : PyDateTime)
    (person : String) : Option PyErr × Library × Book :=
  if book ∉ lib.values ∨ book.is_lent = true then
    (some (PyErr.keyError "Book not lent or not registered in the library"), lib, book)
  else
    let b := { book with is_lent := true, return_date := some return_date,
                         current_user := some person }
    (Option.none,
     { lib with books := lib.books.map (fun q => if q.2 = book then (q.1, b) else q) },
     b)

/-- `Library.return_book`: raises `KeyError` when the book is absent or not
lent; otherwise clears the three lending-state fields in place. -/
def Library.return_book (lib : Library) (book : Book) :
    Option PyErr × Library × Book :=
  if book ∉ lib.values ∨ book.is_lent = false then
    (some (PyErr.keyError "Book available to lent or not registered in the library"), lib, book)
  else
    let b := { book with is_lent := false, current_user := Option.none,
                         return_date := Option.none }
    (Option.none,
     { lib with books := lib.books.map (fun q => if q.2 = book then (q.1, b) else q) },
     b)

/-- Needle occurs at the head of the haystack (character lists). -/
def headMatch : List Char → List Char → Bool
  | [], _ => true
  | x :: xs, y :: ys => if x = y then headMatch xs ys else false
  | _ :: _, [] => false

/-- Python's `needle in haystack` substring test on character lists. -/
def substrCheck (needle : List Char) : List Char → Bool
  | [] => headMatch needle []
  | b :: bs => headMatch needle (b :: bs) || substrCheck needle bs

/-- `str.lower()`, modelled characterwise (ASCII case mapping). -/
def lowerList (l : List Char) : List Char :=
  l.map Char.toLower

/-- `Library.search_title`: lowercase the query, keep the registry values
whose lowercased title contains it, in registry iteration order. -/
def Library.search_title (lib : Library) (search_string : String) : List Book :=
  lib.values.filter
    (fun book => substrCheck (lowerList search_string.toList) (lowerList book.title.toList))

/-- The lending-state invariant of the specification, both directions:
a book is lent exactly when both `current_user` and `return_date` are
non-null, and not lent exactly when both are null.  Mixed states (one
field set, the other absent) satisfy neither biconditional. -/
def Inv (b : Book) : Prop :=
  (b.is_lent = true ↔ b.current_user ≠ Option.none ∧ b.return_date ≠ Option.none) ∧
  (b.is_lent = false ↔ b.current_user = Option.none ∧ b.return_date = Option.none)

instance (b : Book) : Decidable (Inv b) := by
  unfold Inv; infer_instance

/-- Spec-side reading of "`title` contains `s` as a case-insensitive
substring": the lowercased query occurs contiguously inside the
lowercased title. -/
def TitleMatches (s : String) (b : Book) : Prop :=
  ∃ pre post, lowerList b.title.toList = pre ++ lowerList s.toList ++ post

/-! Concrete data used to instantiate the theorems below. -/

/-- An available book in its freshly constructed state. -/
def wBook : Book :=
  { title := "Dune", author := "Herbert", bid := "b1", is_lent := false,
    current_user := Option.none, return_date := Option.none, extra := [] }

/-- A due date: January 2, 2024, midnight. -/
def wDate : PyDateTime := ⟨2024, 1, 2, 0, 0, 0⟩

/-- A clock reading one day before `wDate`. -/
def wToday : PyDateTime := ⟨2024, 1, 1, 0, 0, 0⟩

/-- The book `wBook` after being lent to Alice until `wDate`. -/
def wBookLent : Book :=
  { title := "Dune", author := "Herbert", bid := "b1", is_lent := true,
    current_user := some "Alice", return_date := some wDate, extra := [] }

/-- A second available book, absent from `wLib`. -/
def wBook3 : Book :=
  { title := "Hyperion", author := "Simmons", bid := "b3", is_lent := false,
    current_user := Option.none, return_date := Option.none, extra := [] }

/-- A registry holding just `wBook`. -/
def wLib : Library := { filename := "books.json", books := [("b1", wBook)] }

/-- A registry holding just `wBookLent`. -/
def wLibLent : Library := { filename := "books.json", books := [("b1", wBookLent)] }

/-- A registry with two available books, for the search theorems. -/
def wLib2 : Library :=
  { filename := "books.json",
    books := [("b1", wBook), ("b3", wBook3)] }

/-- An empty registry. -/
def cEmptyLib : Library := { filename := "books.json", books := [] }

/-- A book whose return date carries a nonzero time of day. -/
def rtBook : Book :=
  { title := "t", author := "a", bid := "1", is_lent := true,
    current_user := some "p", return_date := some ⟨2024, 1, 1, 15, 30, 0⟩, extra := [] }

/-- What the round trip actually returns for `rtBook`: the same book with
the return date truncated to midnight. -/
def rtBookParsed : Book :=
  { rtBook with return_date := some ⟨2024, 1, 1, 0, 0, 0⟩ }

/-- A lent book whose return date is a calendar date at midnight, with one
extra attribute. -/
def wRtBook : Book :=
  { title := "Dune", author := "Herbert", bid := "b2", is_lent := true,
    current_user := some "Alice", return_date := some ⟨2024, 1, 1, 0, 0, 0⟩,
    extra := [("year", PyVal.int 1965)] }

/-- A serialized mapping whose `return_date` is a non-null string that is
not in `YYYYMMDD` form. -/
def badDict : BookDict :=
  { title := "t", author := "a", is_lent := false, current_user := Option.none,
    return_date := PyVal.str "not-a-date", extra := [] }

/-- A serialized mapping whose `return_date` is null. -/
def wNullDict : BookDict :=
  { title := "w", author := "x", is_lent := false, current_user := Option.none,
    return_date := PyVal.none, extra := [] }

/-- `wBook` as `lend_book` mutates it when lending to Alice until `wDate`. -/
def lentAlice : Book :=
  { wBook with is_lent := true, return_date := some wDate, current_user := some "Alice" }

/-- `wBookLent` as `return_book` mutates it. -/
def resetLent : Book :=
  { wBookLent with is_lent := false, current_user := Option.none, return_date := Option.none }

/-! Helper lemmas about the association-list dictionary model. -/

theorem mem_snd_assocUpdate {α : Type} {l : List (String × α)} {k : String} {v x : α}
    (hx : x ∈ (assocUpdate l k v).map Prod.snd) : x = v ∨ x ∈ l.map Prod.snd := by
  unfold assocUpdate at hx
  by_cases h : l.any (fun q => q.1 == k)
  · rw [if_pos h] at hx
    rcases List.mem_map.mp hx with ⟨p, hp, rfl⟩
    rcases List.mem_map.mp hp with ⟨q, hq, rfl⟩
    by_cases hk : q.1 = k
    · left; simp [hk]
    · right; simp only [if_neg hk]; exact List.mem_map.mpr ⟨q, hq, rfl⟩
  · rw [if_neg h] at hx
    rw [List.map_append] at hx
    rcases List.mem_append.mp hx with h1 | h1
    · right; exact h1
    · left; simpa using h1

theorem assocUpdate_of_key_new {α : Type} {l : List (String × α)} {k : String} {v : α}
    (h : k ∉ l.map Prod.fst) : assocUpdate l k v = l ++ [(k, v)] := by
  unfold assocUpdate
  rw [if_neg]
  intro hc
  rcases List.any_eq_true.mp hc with ⟨q, hq, hbeq⟩
  exact h (List.mem_map.mpr ⟨q, hq, by simpa using hbeq⟩)

theorem assocUpdate_self_mem {α : Type} (l : List (String × α)) (k : String) (v : α) :
    (k, v) ∈ assocUpdate l k v := by
  unfold assocUpdate
  by_cases h : l.any (fun q => q.1 == k)
  · rw [if_pos h]
    rcases List.any_eq_true.mp h with ⟨q, hq, hbeq⟩
    refine List.mem_map.mpr ⟨q, hq, ?_⟩
    simp [show q.1 = k by simpa using hbeq]
  · rw [if_neg h]
    simp

theorem foldl_assocUpdate_eq_append {α : Type} (l : List (String × α)) :
    ∀ acc : List (String × α), (l.map Prod.fst).Nodup →
      (∀ k ∈ l.map Prod.fst, k ∉ acc.map Prod.fst) →
      l.foldl (fun a kv => assocUpdate a kv.1 kv.2) acc = acc ++ l := by
  induction l with
  | nil => intro acc _ _; simp
  | cons kv rest ih =>
    intro acc hnd hdis
    have hnd' : (kv.1 :: rest.map Prod.fst).Nodup := by simpa using hnd
    have hk : kv.1 ∉ acc.map Prod.fst := hdis kv.1 (by simp)
    have hstep : assocUpdate acc kv.1 kv.2 = acc ++ [kv] := assocUpdate_of_key_new hk
    rw [List.foldl_cons, hstep, ih (acc ++ [kv]) ((List.nodup_cons.mp hnd').2) ?_]
    · simp
    · intro k hkr
      rw [List.map_append, List.mem_append]
      rintro (hacc | hsing)
      · exact hdis k (by simp [hkr]) hacc
      · have hne : k ≠ kv.1 := by
          intro he
          exact (List.nodup_cons.mp hnd').1 (he ▸ hkr)
        simp at hsing
        exact hne hsing

theorem mem_snd_replace {l : List (String × Book)} {book b' x : Book}
    (hx : x ∈ (l.map (fun q => if q.2 = book then (q.1, b') else q)).map Prod.snd) :
    x = b' ∨ x ∈ l.map Prod.snd := by
  rcases List.mem_map.mp hx with ⟨p, hp, rfl⟩
  rcases List.mem_map.mp hp with ⟨q, hq, rfl⟩
  by_cases hk : q.2 = book
  · left; simp [hk]
  · right; simp only [if_neg hk]; exact List.mem_map.mpr ⟨q, hq, rfl⟩

theorem replace_mem_snd {l : List (String × Book)} {book b' : Book}
    (h : book ∈ l.map Prod.snd) :
    b' ∈ (l.map (fun q => if q.2 = book then (q.1, b') else q)).map Prod.snd := by
  rcases List.mem_map.mp h with ⟨q, hq, hq2⟩
  refine List.mem_map.mpr ⟨(q.1, b'), ?_, rfl⟩
  exact List.mem_map.mpr ⟨q, hq, by simp [hq2]⟩

theorem mem_snd_of_filter {l : List (String × Book)} {p : String × Book → Bool} {x : Book}
    (hx : x ∈ (l.filter p).map Prod.snd) : x ∈ l.map Prod.snd := by
  rcases List.mem_map.mp hx with ⟨q, hq, rfl⟩
  exact List.mem_map.mpr ⟨q, List.mem_of_mem_filter hq, rfl⟩

/-- Claim C1: the lending-state invariant (`is_lent` exactly when both
`current_user` and `return_date` are non-null) is preserved by every
mutating operation — `add_book`, `delete_book`, `lend_book`,
`return_book` — whether it succeeds or raises, for every book of the
registry and for the book handled by the call. -/
theorem mutators_keep_invariant (lib : Library) (book : Book) (d : PyDateTime)
    (p : String) (nw : Bool)
    (hlib : ∀ x ∈ lib.values, Inv x) (hbook : Inv book) :
    (∀ x ∈ (lib.add_book book).2.values, Inv x) ∧
    (∀ x ∈ (lib.delete_book book nw).2.values, Inv x) ∧
    (∀ x ∈ (lib.lend_book book d p).2.1.values, Inv x) ∧
    Inv (lib.lend_book book d p).2.2 ∧
    (∀ x ∈ (lib.return_book book).2.1.values, Inv x) ∧
    Inv (lib.return_book book).2.2 := by
  refine ⟨?_, ?_, ?_, ?_, ?_, ?_⟩
  · intro x hx
    unfold Library.add_book at hx
    by_cases hm : book ∈ lib.values
    · rw [if_pos hm] at hx
      exact hlib x hx
    · rw [if_neg hm] at hx
      simp only [Library.values] at hx
      rcases mem_snd_assocUpdate hx with rfl | hx'
      · exact hbook
      · exact hlib x hx'
  · intro x hx
    unfold Library.delete_book at hx
    by_cases hg : book ∉ lib.values ∧ nw = false
    · rw [if_pos hg] at hx
      exact hlib x hx
    · rw [if_neg hg] at hx
      by_cases hk : lib.books.any (fun q => q.1 == book.bid)
      · rw [if_pos hk] at hx
        simp only [Library.values] at hx
        exact hlib x (mem_snd_of_filter hx)
      · rw [if_neg hk] at hx
        exact hlib x hx
  · intro x hx
    unfold Library.lend_book at hx
    by_cases hg : book ∉ lib.values ∨ book.is_lent = true
    · rw [if_pos hg] at hx
      exact hlib x hx
    · rw [if_neg hg] at hx
      simp only [Library.values] at hx
      rcases mem_snd_replace hx with rfl | hx'
      · simp [Inv]
      · exact hlib x hx'
  · unfold Library.lend_book
    by_cases hg : book ∉ lib.values ∨ book.is_lent = true
    · rw [if_pos hg]; exact hbook
    · rw [if_neg hg]; simp [Inv]
  · intro x hx
    unfold Library.return_book at hx
    by_cases hg : book ∉ lib.values ∨ book.is_lent = false
    · rw [if_pos hg] at hx
      exact hlib x hx
    · rw [if_neg hg] at hx
      simp only [Library.values] at hx
      rcases mem_snd_replace hx with rfl | hx'
      · simp [Inv]
      · exact hlib x hx'
  · unfold Library.return_book
    by_cases hg : book ∉ lib.values ∨ book.is_lent = false
    · rw [if_pos hg]; exact hbook
    · rw [if_neg hg]; simp [Inv]

/-- Witness for C1: the invariant hypotheses hold for the concrete
one-book registry `wLib` and the available book `wBook`, and the
conclusion follows at that input. -/
theorem mutators_keep_invariant_witness :
    (∀ x ∈ wLib.values, Inv x) ∧ Inv wBook ∧
    ((∀ x ∈ (wLib.add_book wBook).2.values, Inv x) ∧
     (∀ x ∈ (wLib.delete_book wBook false).2.values, Inv x) ∧
     (∀ x ∈ (wLib.lend_book wBook wDate "Alice").2.1.values, Inv x) ∧
     Inv (wLib.lend_book wBook wDate "Alice").2.2 ∧
     (∀ x ∈ (wLib.return_book wBook).2.1.values, Inv x) ∧
     Inv (wLib.return_book wBook).2.2) :=
  ⟨by decide, by decide,
   mutators_keep_invariant wLib wBook wDate "Alice" false (by decide) (by decide)⟩

/-- Claim C3: for a book present in the registry, `lend_book` on an
already-lent book raises the lending `KeyError` and leaves the registry
and the book unchanged; on an available book it succeeds, setting
`is_lent`, `current_user` and `return_date` on the book both in the
caller's hand and in the registry. -/
theorem lend_book_spec (lib : Library) (book : Book) (d : PyDateTime) (p : String)
    (hmem : book ∈ lib.values) :
    (book.is_lent = true →
      lib.lend_book book d p =
        (some (PyErr.keyError "Book not lent or not registered in the library"), lib, book)) ∧
    (book.is_lent = false →
      lib.lend_book book d p =
        (Option.none,
         { lib with books := lib.books.map (fun q =>
             if q.2 = book then
               (q.1, { book with is_lent := true, return_date := some d,
                                 current_user := some p })
             else q) },
         { book with is_lent := true, return_date := some d, current_user := some p })) := by
  constructor
  · intro h
    unfold Library.lend_book
    rw [if_pos (Or.inr h)]
  · intro h
    unfold Library.lend_book
    rw [if_neg (by simp [hmem, h])]

/-- Witness for C3: `wBook` sits in `wLib` and is available, and lending
it to Alice yields exactly the updated registry and book. -/
theorem lend_book_spec_witness :
    wBook ∈ wLib.values ∧ wBook.is_lent = false ∧
    wLib.lend_book wBook wDate "Alice" =
      (Option.none,
       { wLib with
           books := wLib.books.map (fun q => if q.2 = wBook then (q.1, lentAlice) else q) },
       lentAlice) :=
  ⟨by decide, rfl, (lend_book_spec wLib wBook wDate "Alice" (by decide)).2 rfl⟩

/-- Claim C4: for a book present in the registry, `return_book` on an
available book raises the not-lent `KeyError` and leaves the registry and
the book unchanged; on a lent book it resets the book to the not-lent
defaults; and lending an available book in the default state and then
returning it restores the exact pre-lend book. -/
theorem return_book_spec (lib : Library) (book : Book) (hmem : book ∈ lib.values) :
    (book.is_lent = false →
      lib.return_book book =
        (some (PyErr.keyError "Book available to lent or not registered in the library"),
         lib, book)) ∧
    (book.is_lent = true →
      lib.return_book book =
        (Option.none,
         { lib with books := lib.books.map (fun q =>
             if q.2 = book then
               (q.1, { book with is_lent := false, current_user := Option.none,
                                 return_date := Option.none })
             else q) },
         { book with is_lent := false, current_user := Option.none,
                     return_date := Option.none })) ∧
    (book.is_lent = false → book.current_user = Option.none →
     book.return_date = Option.none → ∀ d p,
      ((lib.lend_book book d p).2.1.return_book (lib.lend_book book d p).2.2).1 =
        Option.none ∧
      ((lib.lend_book book d p).2.1.return_book (lib.lend_book book d p).2.2).2.2 =
        book) := by
  refine ⟨?_, ?_, ?_⟩
  · intro h
    unfold Library.return_book
    rw [if_pos (Or.inr h)]
  · intro h
    unfold Library.return_book
    rw [if_neg (by simp [hmem, h])]
  · intro h hcu hrd d p
    have hlend := (lend_book_spec lib book d p hmem).2 h
    rw [hlend]
    have hmem' :
        ({ book with is_lent := true, return_date := some d, current_user := some p }) ∈
          (Library.values { lib with books := lib.books.map (fun q =>
            if q.2 = book then
              (q.1, { book with is_lent := true, return_date := some d,
                                current_user := some p })
            else q) }) := by
      simp only [Library.values]
      exact replace_mem_snd hmem
    show (Library.return_book _ _).1 = Option.none ∧ (Library.return_book _ _).2.2 = book
    unfold Library.return_book
    rw [if_neg (by simp [hmem'])]
    refine ⟨rfl, ?_⟩
    show ({ book with is_lent := false, current_user := Option.none,
                      return_date := Option.none } : Book) = book
    obtain ⟨t, a, bid, il, cu, rd, ex⟩ := book
    simp only at h hcu hrd
    subst h hcu hrd
    rfl

/-- Witness for C4: returning the lent book `wBookLent` from `wLibLent`
resets it to the defaults, and lending then returning `wBook` in `wLib`
restores `wBook` exactly. -/
theorem return_book_spec_witness :
    wBookLent ∈ wLibLent.values ∧ wBookLent.is_lent = true ∧
    wLibLent.return_book wBookLent =
      (Option.none,
       { wLibLent with
           books := wLibLent.books.map (fun q => if q.2 = wBookLent then (q.1, resetLent) else q) },
       resetLent) ∧
    ((wLib.lend_book wBook wDate "Bob").2.1.return_book
        (wLib.lend_book wBook wDate "Bob").2.2).2.2 = wBook :=
  ⟨by decide, rfl, (return_book_spec wLibLent wBookLent (by decide)).2.1 rfl,
   ((return_book_spec wLib wBook (by decide)).2.2 rfl rfl rfl wDate "Bob").2⟩

/-- Claim C5: `add_book` raises the duplicate `KeyError` when an equal book
is already present and leaves the registry unchanged; otherwise it inserts
the book keyed by its identifier `bid`; in particular after a successful
add, adding the same book again raises the duplicate error. -/
theorem add_book_spec (lib : Library) (book : Book) :
    (book ∈ lib.values →
      lib.add_book book =
        (some (PyErr.keyError "Book already registered in the library"), lib)) ∧
    (book ∉ lib.values →
      lib.add_book book =
        (Option.none, { lib with books := assocUpdate lib.books book.bid book }) ∧
      (book.bid, book) ∈ (lib.add_book book).2.books) ∧
    (book ∉ lib.values →
      (lib.add_book book).2.add_book book =
        (some (PyErr.keyError "Book already registered in the library"),
         (lib.add_book book).2)) := by
  refine ⟨?_, ?_, ?_⟩
  · intro h
    unfold Library.add_book
    rw [if_pos h]
  · intro h
    have heq : lib.add_book book =
        (Option.none, { lib with books := assocUpdate lib.books book.bid book }) := by
      unfold Library.add_book
      rw [if_neg h]
    refine ⟨heq, ?_⟩
    rw [heq]
    exact assocUpdate_self_mem lib.books book.bid book
  · intro h
    have heq : lib.add_book book =
        (Option.none, { lib with books := assocUpdate lib.books book.bid book }) := by
      unfold Library.add_book
      rw [if_neg h]
    have hmem :
        book ∈ (Library.values { lib with books := assocUpdate lib.books book.bid book }) := by
      simp only [Library.values]
      exact List.mem_map.mpr ⟨(book.bid, book), assocUpdate_self_mem lib.books book.bid book, rfl⟩
    rw [heq]
    show Library.add_book { lib with books := assocUpdate lib.books book.bid book } book =
      (some (PyErr.keyError "Book already registered in the library"),
       { lib with books := assocUpdate lib.books book.bid book })
    unfold Library.add_book
    rw [if_pos hmem]

/-- Witness for C5: `wBook3` is absent from `wLib`; adding it inserts it
under its identifier, and adding it a second time raises the duplicate
error. -/
theorem add_book_spec_witness :
    wBook3 ∉ wLib.values ∧
    wLib.add_book wBook3 =
      (Option.none, { wLib with books := assocUpdate wLib.books wBook3.bid wBook3 }) ∧
    (wBook3.bid, wBook3) ∈ (wLib.add_book wBook3).2.books ∧
    (wLib.add_book wBook3).2.add_book wBook3 =
      (some (PyErr.keyError "Book already registered in the library"),
       (wLib.add_book wBook3).2) :=
  ⟨by decide, ((add_book_spec wLib wBook3).2.1 (by decide)).1,
   ((add_book_spec wLib wBook3).2.1 (by decide)).2,
   (add_book_spec wLib wBook3).2.2 (by decide)⟩

/-- Claim C6 (code bug): the claim — and the source docstring — say that
`delete_book(book, no_warn=True)` on an absent book succeeds and leaves
the registry unchanged, but after the suppressed guard the code still runs
`self.books.pop(book.bid)`, which raises `KeyError(book.bid)` on the empty
registry. -/
theorem delete_book_no_warn_bug :
    cEmptyLib.delete_book wBook true =
      (some (PyErr.keyError "b1"), cEmptyLib) := by decide

/-- Folding keyword arguments whose keys avoid the three lending-state
attributes only touches the extra-attribute mapping. -/
theorem foldl_applyKwarg_core_fields (kwargs : List (String × PyVal)) :
    ∀ b : Book,
      (∀ kv ∈ kwargs, kv.1 ≠ "is_lent" ∧ kv.1 ≠ "current_user" ∧ kv.1 ≠ "return_date") →
      (kwargs.foldl Book.applyKwarg b).title = b.title ∧
      (kwargs.foldl Book.applyKwarg b).author = b.author ∧
      (kwargs.foldl Book.applyKwarg b).bid = b.bid ∧
      (kwargs.foldl Book.applyKwarg b).is_lent = b.is_lent ∧
      (kwargs.foldl Book.applyKwarg b).current_user = b.current_user ∧
      (kwargs.foldl Book.applyKwarg b).return_date = b.return_date := by
  induction kwargs with
  | nil => intro b _; exact ⟨rfl, rfl, rfl, rfl, rfl, rfl⟩
  | cons kv rest ih =>
    intro b h
    have hk := h kv (by simp)
    have hstep : Book.applyKwarg b kv =
        { b with extra := assocUpdate b.extra kv.1 kv.2 } := by
      unfold Book.applyKwarg
      rw [if_neg hk.1, if_neg hk.2.1, if_neg hk.2.2]
    rw [List.foldl_cons, hstep]
    exact ih _ (fun kv' hkv' => h kv' (by simp [hkv']))

/-- Counterexample to C7 as stated: the constructor applies
`self.__dict__.update(kwargs)` after setting the defaults, so a keyword
`is_lent=True` yields a book with `is_lent = true`, not `false`. -/
theorem book_init_kwargs_override :
    (Book.init "t" "a" (some "b1") "f" [("is_lent", PyVal.bool true)]).is_lent = true := rfl

/-- Claim C7 (amended): constructing a Book with extra keyword fields whose
keys are none of `is_lent`, `current_user`, `return_date` yields a fresh
entity in the not-lent default state, with the given title and author and
with identifier equal to the given id, or to the freshly generated
identifier when the id is omitted. -/
theorem book_init_defaults (title author : String) (bid : Option String) (fresh : String)
    (kwargs : List (String × PyVal))
    (h : ∀ kv ∈ kwargs, kv.1 ≠ "is_lent" ∧ kv.1 ≠ "current_user" ∧ kv.1 ≠ "return_date") :
    (Book.init title author bid fresh kwargs).is_lent = false ∧
    (Book.init title author bid fresh kwargs).current_user = Option.none ∧
    (Book.init title author bid fresh kwargs).return_date = Option.none ∧
    (Book.init title author bid fresh kwargs).title = title ∧
    (Book.init title author bid fresh kwargs).author = author ∧
    (Book.init title author bid fresh kwargs).bid = bid.getD fresh := by
  have hf := foldl_applyKwarg_core_fields kwargs
    { title := title, author := author, bid := bid.getD fresh,
      is_lent := false, current_user := Option.none, return_date := Option.none,
      extra := [] } h
  exact ⟨hf.2.2.2.1, hf.2.2.2.2.1, hf.2.2.2.2.2, hf.1, hf.2.1, hf.2.2.1⟩

/-- Witness for C7: a concrete construction with one extra keyword field
(`year=1965`) lands in the default not-lent state with the given id. -/
theorem book_init_defaults_witness :
    (∀ kv ∈ [("year", PyVal.int 1965)],
        kv.1 ≠ "is_lent" ∧ kv.1 ≠ "current_user" ∧ kv.1 ≠ "return_date") ∧
    ((Book.init "Dune" "Herbert" (some "b9") "fresh" [("year", PyVal.int 1965)]).is_lent
        = false ∧
     (Book.init "Dune" "Herbert" (some "b9") "fresh"
        [("year", PyVal.int 1965)]).current_user = Option.none ∧
     (Book.init "Dune" "Herbert" (some "b9") "fresh"
        [("year", PyVal.int 1965)]).return_date = Option.none ∧
     (Book.init "Dune" "Herbert" (some "b9") "fresh"
        [("year", PyVal.int 1965)]).title = "Dune" ∧
     (Book.init "Dune" "Herbert" (some "b9") "fresh"
        [("year", PyVal.int 1965)]).author = "Herbert" ∧
     (Book.init "Dune" "Herbert" (some "b9") "fresh"
        [("year", PyVal.int 1965)]).bid = (some "b9").getD "fresh") :=
  ⟨by decide,
   book_init_defaults "Dune" "Herbert" (some "b9") "fresh"
     [("year", PyVal.int 1965)] (by decide)⟩

/-- Claim C8: `days_until_return` on a book that is not lent returns the
absent value without raising; on a lent book with a return date it returns
the signed duration `return_date - today`, which is negative exactly when
the book is overdue. -/
theorem days_until_return_spec (b : Book) (today : PyDateTime) :
    (b.is_lent = false → b.days_until_return today = Except.ok Option.none) ∧
    (∀ d, b.is_lent = true → b.return_date = some d →
      b.days_until_return today =
        Except.ok (some (d.toSeconds - today.toSeconds)) ∧
      (today.toSeconds > d.toSeconds → d.toSeconds - today.toSeconds < 0)) := by
  constructor
  · intro h
    simp [Book.days_until_return, h]
  · intro d h hd
    refine ⟨by simp [Book.days_until_return, h, hd], fun hlt => ?_⟩
    exact sub_neg.mpr hlt

/-- Witness for C8: the lent book `wBookLent` due on `wDate` evaluated one
day before the due date yields a duration of one day (86400 seconds), and
an available book yields the absent value. -/
theorem days_until_return_spec_witness :
    wBookLent.is_lent = true ∧ wBookLent.return_date = some wDate ∧
    wBookLent.days_until_return wToday =
      Except.ok (some (wDate.toSeconds - wToday.toSeconds)) ∧
    wBookLent.days_until_return wToday = Except.ok (some 86400) ∧
    wBook.is_lent = false ∧
    wBook.days_until_return wToday = Except.ok Option.none :=
  ⟨rfl, rfl,
   ((days_until_return_spec wBookLent wToday).2 wDate rfl rfl).1,
   rfl,
   rfl,
   (days_until_return_spec wBook wToday).1 rfl⟩

/-- `headMatch` decides "the haystack starts with the needle". -/
theorem headMatch_iff : ∀ n h : List Char, headMatch n h = true ↔ ∃ rest, h = n ++ rest := by
  intro n
  induction n with
  | nil =>
    intro h
    simp [headMatch]
  | cons a as ih =>
    intro h
    cases h with
    | nil =>
      simp [headMatch]
    | cons b bs =>
      simp only [headMatch]
      by_cases hab : a = b
      · subst hab
        rw [if_pos rfl, ih bs]
        constructor
        · rintro ⟨rest, rfl⟩; exact ⟨rest, rfl⟩
        · rintro ⟨rest, he⟩
          simp only [List.cons_append] at he
          exact ⟨rest, by injection he⟩
      · rw [if_neg hab]
        constructor
        · intro hc; exact absurd hc (by simp)
        · rintro ⟨rest, he⟩
          simp only [List.cons_append] at he
          injection he with h1 _
          exact absurd h1.symm hab

/-- `substrCheck` decides contiguous containment. -/
theorem substrCheck_iff :
    ∀ n h : List Char, substrCheck n h = true ↔ ∃ pre post, h = pre ++ n ++ post := by
  intro n h
  induction h with
  | nil =>
    simp only [substrCheck]
    rw [headMatch_iff]
    constructor
    · rintro ⟨rest, he⟩
      exact ⟨[], rest, by simpa using he⟩
    · rintro ⟨pre, post, he⟩
      rcases List.append_eq_nil.mp (List.append_eq_nil.mp he.symm).1 with ⟨rfl, rfl⟩
      exact ⟨post, by simpa using he⟩
  | cons b bs ih =>
    simp only [substrCheck, Bool.or_eq_true]
    rw [headMatch_iff, ih]
    constructor
    · rintro (⟨rest, he⟩ | ⟨pre, post, he⟩)
      · exact ⟨[], rest, by simpa using he⟩
      · exact ⟨b :: pre, post, by simp [he]⟩
    · rintro ⟨pre, post, he⟩
      cases pre with
      | nil => exact Or.inl ⟨post, by simpa using he⟩
      | cons x xs =>
        refine Or.inr ⟨xs, post, ?_⟩
        simp only [List.cons_append] at he
        injection he

/-- An empty needle is contained in every haystack. -/
theorem substrCheck_nil (l : List Char) : substrCheck [] l = true := by
  cases l <;> simp [substrCheck, headMatch]

/-- The spec-side containment predicate agrees with the code's check. -/
theorem TitleMatches_iff_check (s : String) (b : Book) :
    TitleMatches s b ↔
      substrCheck (lowerList s.toList) (lowerList b.title.toList) = true := by
  unfold TitleMatches
  exact (substrCheck_iff _ _).symm

/-- Claim C9: `search_title` returns exactly the registry values whose
title contains the query as a case-insensitive substring, in registry
iteration order; the empty query returns all books and a query matching
no title returns the empty list. -/
theorem search_title_spec (lib : Library) (s : String) :
    lib.search_title s =
      lib.values.filter
        (fun b => substrCheck (lowerList s.toList) (lowerList b.title.toList)) ∧
    (∀ b, b ∈ lib.search_title s ↔ b ∈ lib.values ∧ TitleMatches s b) ∧
    lib.search_title "" = lib.values ∧
    ((∀ b ∈ lib.values, ¬ TitleMatches s b) → lib.search_title s = []) := by
  refine ⟨rfl, ?_, ?_, ?_⟩
  · intro b
    unfold Library.search_title
    rw [List.mem_filter]
    constructor
    · rintro ⟨hb, hc⟩
      exact ⟨hb, (TitleMatches_iff_check s b).mpr hc⟩
    · rintro ⟨hb, hm⟩
      exact ⟨hb, (TitleMatches_iff_check s b).mp hm⟩
  · unfold Library.search_title
    apply List.filter_eq_self.mpr
    intro b _
    exact substrCheck_nil _
  · intro hno
    unfold Library.search_title
    rw [List.filter_eq_nil_iff]
    intro b hb
    have hm := hno b hb
    rw [TitleMatches_iff_check] at hm
    simpa using hm

/-- Witness for C9: on the two-book registry `wLib2` no title matches
"zzz", so the search returns the empty list, while the empty query
returns every book. -/
theorem search_title_spec_witness :
    (∀ b ∈ wLib2.values, ¬ TitleMatches "zzz" b) ∧
    wLib2.search_title "zzz" = [] ∧
    wLib2.search_title "" = wLib2.values := by
  have hno : ∀ b ∈ wLib2.values, ¬ TitleMatches "zzz" b := by
    intro b hb
    rw [TitleMatches_iff_check]
    have hv : wLib2.values = [wBook, wBook3] := rfl
    rw [hv] at hb
    simp only [List.mem_cons, List.not_mem_nil, or_false] at hb
    rcases hb with rfl | rfl <;> decide
  exact ⟨hno, (search_title_spec wLib2 "zzz").2.2.2 hno,
    (search_title_spec wLib2 "").2.2.1⟩

/-- `charVal` inverts `digitChar` on single digits. -/
theorem charVal_digitChar (k : Nat) (hk : k < 10) : charVal (digitChar k) = some k := by
  interval_cases k <;> rfl

/-- No month has more than 31 days. -/
theorem daysInMonth_le31 (y m : Nat) : daysInMonth y m ≤ 31 := by
  unfold daysInMonth
  split <;> first | omega | (split <;> omega)

/-- Parsing the formatted form of a valid four-digit-year date recovers the
date at midnight. -/
theorem parseYYYYMMDD_fmt (d : PyDateTime) (hv : d.ValidDate) :
    parseYYYYMMDD (fmtYYYYMMDD d) = some ⟨d.year, d.month, d.day, 0, 0, 0⟩ := by
  obtain ⟨hy1, hy2, hm1, hm2, hd1, hd2⟩ := hv
  have hd31 : d.day ≤ 31 := le_trans hd2 (daysInMonth_le31 _ _)
  have c1 := charVal_digitChar (d.year / 1000 % 10) (Nat.mod_lt _ (by norm_num))
  have c2 := charVal_digitChar (d.year / 100 % 10) (Nat.mod_lt _ (by norm_num))
  have c3 := charVal_digitChar (d.year / 10 % 10) (Nat.mod_lt _ (by norm_num))
  have c4 := charVal_digitChar (d.year % 10) (Nat.mod_lt _ (by norm_num))
  have c5 := charVal_digitChar (d.month / 10 % 10) (Nat.mod_lt _ (by norm_num))
  have c6 := charVal_digitChar (d.month % 10) (Nat.mod_lt _ (by norm_num))
  have c7 := charVal_digitChar (d.day / 10 % 10) (Nat.mod_lt _ (by norm_num))
  have c8 := charVal_digitChar (d.day % 10) (Nat.mod_lt _ (by norm_num))
  simp only [fmtYYYYMMDD, parseYYYYMMDD, c1, c2, c3, c4, c5, c6, c7, c8]
  have hy : 1000 * (d.year / 1000 % 10) + 100 * (d.year / 100 % 10) +
      10 * (d.year / 10 % 10) + d.year % 10 = d.year := by omega
  have hmo : 10 * (d.month / 10 % 10) + d.month % 10 = d.month := by omega
  have hda : 10 * (d.day / 10 % 10) + d.day % 10 = d.day := by omega
  rw [hy, hmo, hda, if_pos ⟨by omega, by omega, hm2, hd1, hd2⟩]

/-- Claim C2 (amended): for a book whose `return_date` is null or a valid
calendar datetime at midnight, deserializing the serialized form with the
same identifier reproduces the book exactly; the serialized `return_date`
is an 8-character `YYYYMMDD` string when present and null when absent, and
the serialized payload does not depend on the identifier. -/
theorem to_from_dict_roundtrip (b : Book) (fresh : String)
    (hx : (b.extra.map Prod.fst).Nodup)
    (hrd : b.return_date = Option.none ∨
      ∃ d, b.return_date = some d ∧ d.ValidDate ∧
        d.hour = 0 ∧ d.minute = 0 ∧ d.second = 0) :
    Book.from_dict b.to_dict (some b.bid) fresh = Except.ok b ∧
    (b.return_date = Option.none → b.to_dict.return_date = PyVal.none) ∧
    (∀ d, b.return_date = some d →
        b.to_dict.return_date = PyVal.str (String.mk (fmtYYYYMMDD d)) ∧
        (String.mk (fmtYYYYMMDD d)).length = 8) ∧
    (∀ s, Book.to_dict { b with bid := s } = b.to_dict) := by
  obtain ⟨t, a, bid, il, cu, rd, ex⟩ := b
  replace hx : (ex.map Prod.fst).Nodup := hx
  replace hrd : rd = Option.none ∨
      ∃ d, rd = some d ∧ d.ValidDate ∧
        d.hour = 0 ∧ d.minute = 0 ∧ d.second = 0 := hrd
  have hextra : ex.foldl (fun acc kv => assocUpdate acc kv.1 kv.2)
      ([] : List (String × PyVal)) = ex := by
    simpa using foldl_assocUpdate_eq_append ex [] hx (by simp)
  refine ⟨?_, ?_, ?_, ?_⟩
  · rcases hrd with rfl | ⟨d, rfl, hvd, hh, hm, hs⟩
    · simp only [Book.from_dict, Book.to_dict, parseReturnDate, Book.init,
        List.foldl_nil, Option.getD_some, hextra]
    · simp only [Book.from_dict, Book.to_dict, parseReturnDate, Book.init,
        List.foldl_nil, Option.getD_some, hextra]
      rw [show (String.mk (fmtYYYYMMDD d)).toList = fmtYYYYMMDD d from rfl,
        parseYYYYMMDD_fmt d hvd]
      have hdd : (⟨d.year, d.month, d.day, 0, 0, 0⟩ : PyDateTime) = d := by
        obtain ⟨y, mo, da, h1, m1, s1⟩ := d
        dsimp only at hh hm hs
        subst hh hm hs
        rfl
      rw [hdd]
  · intro h
    replace h : rd = Option.none := h
    subst h
    rfl
  · intro d hd
    replace hd : rd = some d := hd
    subst hd
    exact ⟨rfl, rfl⟩
  · intro s
    rfl

/-- Witness for C2: the lent book `wRtBook`, due at midnight January 1,
2024 and carrying one extra field, survives the round trip exactly. -/
theorem to_from_dict_roundtrip_witness :
    (wRtBook.extra.map Prod.fst).Nodup ∧
    wRtBook.return_date = some ⟨2024, 1, 1, 0, 0, 0⟩ ∧
    PyDateTime.ValidDate ⟨2024, 1, 1, 0, 0, 0⟩ ∧
    Book.from_dict wRtBook.to_dict (some wRtBook.bid) "f" = Except.ok wRtBook :=
  ⟨by decide, rfl, by decide,
   (to_from_dict_roundtrip wRtBook "f" (by decide)
     (Or.inr ⟨⟨2024, 1, 1, 0, 0, 0⟩, rfl, by decide, rfl, rfl, rfl⟩)).1⟩

/-- Counterexample to C2 as stated: a return date with a nonzero time of
day does not survive the round trip, because `strftime('%Y%m%d')` drops
the time; the book comes back with the date truncated to midnight, so the
result differs from the original book. -/
theorem roundtrip_drops_time :
    Book.from_dict rtBook.to_dict (some "1") "f" = Except.ok rtBookParsed ∧
    (rtBookParsed == rtBook) = false :=
  ⟨rfl, by decide⟩

/-- Claim C10: `from_dict` maps a null `return_date` to an absent date
without error, but a non-null string that is not in `YYYYMMDD` form makes
it raise an uncaught `ValueError` (only the `TypeError` of the null case
is handled), so deserialization is not total. -/
theorem from_dict_partial :
    (∀ (bd : BookDict) (bid : Option String) (fresh : String),
        bd.return_date = PyVal.none →
        ∃ bk, Book.from_dict bd bid fresh = Except.ok bk ∧
          bk.return_date = Option.none) ∧
    Book.from_dict badDict (some "x") "f" = Except.error PyErr.valueError := by
  constructor
  · intro bd bid fresh h
    have hp : parseReturnDate bd.return_date = Except.ok Option.none := by
      rw [h]; rfl
    unfold Book.from_dict
    simp only [hp]
    exact ⟨_, rfl, rfl⟩
  · rfl

/-- Witness for C10: the concrete mapping `wNullDict` with a null
`return_date` deserializes without error to a book with no return date. -/
theorem from_dict_partial_witness :
    wNullDict.return_date = PyVal.none ∧
    (∃ bk, Book.from_dict wNullDict (some "w") "f" = Except.ok bk ∧
      bk.return_date = Option.none) :=
  ⟨rfl, from_dict_partial.1 wNullDict (some "w") "f" rfl⟩

end PyLib
